import Mathlib

/-! Formal model of the Saathi elderly-care backend (src/backend/server.py).

The server is a FastAPI application over MongoDB.  We embed the handlers the
claims are about as pure Lean functions: the Mongo database becomes an explicit
`DB` record of association lists keyed by ObjectId (modelled as `Nat`, with a
decimal string rendering standing in for the 24-hex-digit ObjectId rendering),
external calls (the language model) become explicit oracle arguments, and
`datetime.utcnow()` becomes an explicit timestamp argument.  Handlers that can
raise `HTTPException` return `Except HTTPError _`; note that in the source every
`HTTPException` raised inside a `try` block is caught by the enclosing
`except Exception` clause and re-raised with status 400, so failures of the
guarded user/reminder handlers all surface with status 400. -/

set_option maxRecDepth 4000

namespace Saathi

/-! ## Python dict model and `serialize_doc` (server.py lines 82-86)

MongoDB documents are Python dicts: insertion-ordered association lists with
unique keys.  `dictSet` overwrites in place when the key exists (keeping its
position) and appends otherwise, matching `doc['id'] = ...`; `dictDel` matches
`del doc['_id']`. -/

/-- Model of the Python values stored in a document: strings, ObjectIds
(carried as `Nat`), integers and booleans. -/
inductive Value where
  | str (s : String)
  | oid (n : Nat)
  | int (n : Nat)
  | bool (b : Bool)
deriving DecidableEq, Repr

/-- Decimal rendering of an ObjectId value `n` (model of the 24-hex-digit
string `str(ObjectId)`; the base does not matter to any claim, only that
rendering and parsing are mutually inverse). -/
def oidString (n : Nat) : String :=
  String.mk (((Nat.digits 10 n).map (fun d => Char.ofNat (48 + d))).reverse)

/-- Model of Python `str()` on a stored value. -/
def pyStr : Value → String
  | .str s => s
  | .oid n => oidString n
  | .int n => toString n
  | .bool b => if b then "True" else "False"

/-- A document: insertion-ordered key/value association list. -/
abbrev Dict := List (String × Value)

/-- Lookup: first binding of the key (Python dict lookup). -/
def dictGet (d : Dict) (k : String) : Option Value :=
  (d.find? (fun p => p.1 == k)).map (fun p => p.2)

/-- Assignment `d[k] = v`: overwrite in place when present, append otherwise. -/
def dictSet (d : Dict) (k : String) (v : Value) : Dict :=
  if (d.find? (fun p => p.1 == k)).isSome then
    d.map (fun p => if p.1 == k then (k, v) else p)
  else
    d ++ [(k, v)]

/-- Deletion `del d[k]`. -/
def dictDel (d : Dict) (k : String) : Dict :=
  d.filter (fun p => p.1 != k)

/-- server.py 82-86: `serialize_doc` moves `_id` to `id` as a string.
The Python guard is `if doc and '_id' in doc`; an empty (falsy) dict has no
`_id` either, so testing only for the key is equivalent. -/
def serialize_doc (doc : Dict) : Dict :=
  match dictGet doc "_id" with
  | some v => dictDel (dictSet doc "id" (Value.str (pyStr v))) "_id"
  | none => doc

/-! ## ObjectId strings

`oidString` renders an id, `parseObjectId` models the `ObjectId(s)`
constructor, which raises (here: `none`) on a string that is not a rendered
id. -/

/-- Value of a decimal digit character, `none` on any other character. -/
def digitVal? (c : Char) : Option Nat :=
  if 48 ≤ c.toNat ∧ c.toNat ≤ 57 then some (c.toNat - 48) else none

/-- Model of `ObjectId(s)`: accepts exactly the strings produced by
`oidString` on a nonzero id. -/
def parseObjectId (s : String) : Option Nat :=
  match s.toList.mapM digitVal? with
  | some ds => if ds.isEmpty then none else some (Nat.ofDigits 10 ds.reverse)
  | none => none

/-! ## Database state

Each Mongo collection becomes an association list from ObjectId (a `Nat`) to a
typed document; `nextId` is the next id `insert_one` will allocate. -/

/-- Timestamps (`datetime.utcnow()` values) are opaque here. -/
abbrev Timestamp := Nat

structure UserDoc where
  name : String
  emergency_contacts : List (String × String)
  created_at : Timestamp
deriving DecidableEq, Repr

structure ReminderDoc where
  user_id : String
  type : String
  title : String
  time : String
  enabled : Bool
  snoozed_until : Option Timestamp
  created_at : Timestamp
deriving DecidableEq, Repr

/-- One entry of a conversation's `messages` list. -/
structure Msg where
  role : String
  content : String
  timestamp : Timestamp
deriving DecidableEq, Repr

structure ConversationDoc where
  user_id : String
  messages : List Msg
  created_at : Timestamp
  updated_at : Timestamp
deriving DecidableEq, Repr

structure BirthdayDoc where
  user_id : String
  person_name : String
  relation : String
  birth_date : String
  phone : Option String
  created_at : Timestamp
deriving DecidableEq, Repr

/-- The database: the collections the verified handlers touch. -/
structure DB where
  users : List (Nat × UserDoc)
  reminders : List (Nat × ReminderDoc)
  conversations : List (Nat × ConversationDoc)
  birthdays : List (Nat × BirthdayDoc)
  nextId : Nat
deriving DecidableEq, Repr

def emptyDB : DB := ⟨[], [], [], [], 1⟩

/-- Well-formedness: ids already stored are smaller than the next fresh id
(so inserts are really fresh), ids are nonzero, and conversation keys are
unique (Mongo `_id`s are unique). -/
def DB.WF (db : DB) : Prop :=
  db.nextId ≠ 0 ∧
  (∀ p ∈ db.reminders, p.1 < db.nextId) ∧
  (∀ p ∈ db.conversations, p.1 < db.nextId) ∧
  (db.conversations.map (fun p => p.1)).Nodup

instance (db : DB) : Decidable db.WF := by
  unfold DB.WF; infer_instance

/-- FastAPI `HTTPException`: a status code and a detail string.  Detail
strings in this model are representative constants, not the exact Python
`str(e)` texts. -/
structure HTTPError where
  status : Nat
  detail : String
deriving DecidableEq, Repr

/-! ## User and reminder handlers -/

/-- Response shape of the `User` pydantic model. -/
structure UserOut where
  id : String
  name : String
  emergency_contacts : List (String × String)
  created_at : Timestamp
deriving DecidableEq, Repr

/-- server.py 104-112, `GET /users/\x7buser_id\x7d`.  A missing user raises
HTTPException(404), but the enclosing `except Exception` catches it and
re-raises with status 400, so every failure surfaces as 400. -/
def get_user (db : DB) (user_id : String) : Except HTTPError UserOut :=
  match parseObjectId user_id with
  | none => .error ⟨400, "invalid ObjectId"⟩
  | some oid =>
    match db.users.find? (fun p => p.1 == oid) with
    | none => .error ⟨400, "404: User not found"⟩
    | some p => .ok ⟨oidString p.1, p.2.name, p.2.emergency_contacts, p.2.created_at⟩

/-- Request shape of `ReminderCreate`. -/
structure ReminderCreate where
  type : String
  title : String
  time : String
  enabled : Bool
deriving DecidableEq, Repr

/-- Response shape of the `Reminder` pydantic model. -/
structure ReminderOut where
  id : String
  user_id : String
  type : String
  title : String
  time : String
  enabled : Bool
  snoozed_until : Option Timestamp
  created_at : Timestamp
deriving DecidableEq, Repr

def reminderOut (oid : Nat) (r : ReminderDoc) : ReminderOut :=
  ⟨oidString oid, r.user_id, r.type, r.title, r.time, r.enabled, r.snoozed_until, r.created_at⟩

/-- server.py 120-127, `POST /reminders`: insert the payload plus `user_id`
and `created_at`, return it with the fresh id (the inserted document has no
`snoozed_until` key; reading it back through the pydantic model defaults the
field to `None`, so storing `none` is equivalent). -/
def create_reminder (db : DB) (reminder : ReminderCreate) (user_id : String) (now : Timestamp) :
    ReminderOut × DB :=
  let oid := db.nextId
  let doc : ReminderDoc :=
    ⟨user_id, reminder.type, reminder.title, reminder.time, reminder.enabled, none, now⟩
  (reminderOut oid doc,
    { db with reminders := db.reminders ++ [(oid, doc)], nextId := oid + 1 })

/-- server.py 134-142, `GET /reminders/\x7breminder_id\x7d`; as in `get_user`
the 404 is converted to 400 by the `except` clause. -/
def get_reminder (db : DB) (reminder_id : String) : Except HTTPError ReminderOut :=
  match parseObjectId reminder_id with
  | none => .error ⟨400, "invalid ObjectId"⟩
  | some oid =>
    match db.reminders.find? (fun p => p.1 == oid) with
    | none => .error ⟨400, "404: Reminder not found"⟩
    | some p => .ok (reminderOut p.1 p.2)

/-- Request shape of `ReminderUpdate` (all fields optional). -/
structure ReminderUpdate where
  title : Option String
  time : Option String
  enabled : Option Bool
  snoozed_until : Option Timestamp
deriving DecidableEq, Repr

/-- `update.dict()` with the `None` entries filtered out is empty. -/
def ReminderUpdate.isEmptyUpd (u : ReminderUpdate) : Bool :=
  u.title.isNone && u.time.isNone && u.enabled.isNone && u.snoozed_until.isNone

/-- Mongo `$set` with the non-`None` fields of the update. -/
def applySet (r : ReminderDoc) (u : ReminderUpdate) : ReminderDoc :=
  { r with
    title := u.title.getD r.title
    time := u.time.getD r.time
    enabled := u.enabled.getD r.enabled
    snoozed_until :=
      match u.snoozed_until with
      | some t => some t
      | none => r.snoozed_until }

/-- server.py 144-162, `PATCH /reminders/\x7breminder_id\x7d`.  `update_one`
reports `modified_count = 0` both when no document matches and when the
`$set` changes nothing; either way the handler raises 404, which the
`except` clause converts to 400.  On success the handler re-reads the
document and returns it. -/
def update_reminder (db : DB) (reminder_id : String) (update : ReminderUpdate) :
    Except HTTPError ReminderOut × DB :=
  if update.isEmptyUpd then (.error ⟨400, "400: No fields to update"⟩, db)
  else
    match parseObjectId reminder_id with
    | none => (.error ⟨400, "invalid ObjectId"⟩, db)
    | some oid =>
      match db.reminders.find? (fun p => p.1 == oid) with
      | none => (.error ⟨400, "404: Reminder not found"⟩, db)
      | some p =>
        let r' := applySet p.2 update
        if r' = p.2 then (.error ⟨400, "404: Reminder not found"⟩, db)
        else
          (.ok (reminderOut oid r'),
            { db with reminders :=
                db.reminders.map (fun q => if q.1 == oid then (q.1, r') else q) })

/-- server.py 164-172, `DELETE /reminders/\x7breminder_id\x7d`.
`delete_one` removes the first matching document; `deleted_count = 0` raises
404, converted to 400 by the `except` clause. -/
def delete_reminder (db : DB) (reminder_id : String) :
    Except HTTPError String × DB :=
  match parseObjectId reminder_id with
  | none => (.error ⟨400, "invalid ObjectId"⟩, db)
  | some oid =>
    match db.reminders.find? (fun p => p.1 == oid) with
    | none => (.error ⟨400, "404: Reminder not found"⟩, db)
    | some _ =>
      (.ok "Reminder deleted successfully",
        { db with reminders := db.reminders.eraseP (fun p => p.1 == oid) })

/-! ## Chat endpoint (server.py 192-293)

The language-model call is an oracle: `reply` is the string the model
returns.  All `datetime.utcnow()` readings during one request are collapsed
into the single `now` argument. -/

/-- Request shape of `ChatMessage`. -/
structure ChatMessageIn where
  message : String
  user_id : Option String
deriving DecidableEq, Repr

/-- Response shape of `ChatResponse`. -/
structure ChatResponseOut where
  response : String
  timestamp : Timestamp
deriving DecidableEq, Repr

/-- server.py 211-256: the system prompt handed to the language model,
transcribed verbatim (apostrophes and curly braces written as escapes). -/
def system_message : String :=
  "You are Saathi, a calm, warm, and empathetic voice companion for elderly parents. \n        You speak like a caring friend - simple, clear, and comforting. \n        Keep responses short (2-3 sentences max) and age-appropriate.\n        \n        IMPORTANT - Voice Command Detection:\n        \n        1. REMINDER COMMANDS:\n        \"REMINDER_COMMAND:\x7btype\x7d:\x7btitle\x7d:\x7btime\x7d\"\n        Example: \"Remind me to call son at 3pm\" → \"REMINDER_COMMAND:call:Call son:15:00\"\n        \n        2. LOCATION QUERIES:\n        \"LOCATION_QUERY:\x7btype\x7d\"\n        Examples: \"Where is nearest hospital?\" → \"LOCATION_QUERY:hospital\"\n        \n        3. NEWS QUERIES:\n        \"NEWS_QUERY:\x7bcategory\x7d\"\n        Examples:\n        - \"Tell me the news\" / \"What\x27s happening?\" → \"NEWS_QUERY:general\"\n        - \"Sports news\" → \"NEWS_QUERY:sports\"\n        - \"Health news\" → \"NEWS_QUERY:health\"\n        \n        4. WEATHER QUERIES:\n        \"WEATHER_QUERY\"\n        Examples: \"What\x27s the weather?\" / \"Should I take umbrella?\" → \"WEATHER_QUERY\"\n        \n        5. RECIPE QUERIES:\n        \"RECIPE_QUERY:\x7bingredients or dish name\x7d\"\n        Examples:\n        - \"What can I cook with potatoes?\" → \"RECIPE_QUERY:potatoes\"\n        - \"Show me dal recipe\" → \"RECIPE_QUERY:dal\"\n        - \"Diabetic friendly recipe\" → \"RECIPE_QUERY:diabetic\"\n        \n        6. YOUTUBE/VIDEO QUERIES:\n        \"YOUTUBE_QUERY:\x7bsearch term\x7d\"\n        Examples:\n        - \"Play morning prayers\" → \"YOUTUBE_QUERY:morning prayers\"\n        - \"Show me yoga videos\" → \"YOUTUBE_QUERY:yoga for seniors\"\n        - \"Play Hanuman Chalisa\" → \"YOUTUBE_QUERY:Hanuman Chalisa\"\n        \n        7. CONFIRMATIONS:\n        \"Wonderful! I\x27m so proud of you.\"\n        \n        8. SNOOZE:\n        \"SNOOZE_COMMAND:15\"\n        \n        For all other conversations, be warm, supportive, and helpful."

/-- server.py 269-283: append the user and the assistant message, then keep
only the last 20 entries (`messages[-20:]`; the comment in the source says
10, the code says 20). -/
def chatUpdateMessages (msgs : List Msg) (userMsg assistantMsg : Msg) : List Msg :=
  let m := msgs ++ [userMsg, assistantMsg]
  if m.length > 20 then m.drop (m.length - 20) else m

/-- server.py 192-293, `POST /chat`.  When no conversation exists for the
user one is inserted with empty `messages` and then updated, which nets the
same stored document as updating the found one. -/
def chat (db : DB) (message : ChatMessageIn) (reply : String) (now : Timestamp) :
    Except HTTPError ChatResponseOut × DB :=
  let uid := message.user_id.getD "default"
  let userMsg : Msg := ⟨"user", message.message, now⟩
  let asstMsg : Msg := ⟨"assistant", reply, now⟩
  match db.conversations.find? (fun p => p.2.user_id == uid) with
  | none =>
    let oid := db.nextId
    let msgs := chatUpdateMessages [] userMsg asstMsg
    let conv : ConversationDoc := ⟨uid, msgs, now, now⟩
    (.ok ⟨reply, now⟩,
      { db with conversations := db.conversations ++ [(oid, conv)], nextId := oid + 1 })
  | some q =>
    let msgs := chatUpdateMessages q.2.messages userMsg asstMsg
    (.ok ⟨reply, now⟩,
      { db with conversations :=
          db.conversations.map (fun p =>
            if p.1 == q.1 then (p.1, { p.2 with messages := msgs, updated_at := now }) else p) })

/-- Messages of the stored conversation with id `cid`. -/
def convMessages (db : DB) (cid : Nat) : Option (List Msg) :=
  (db.conversations.find? (fun p => p.1 == cid)).map (fun p => p.2.messages)

/-- Substring occurrence on character lists: does `pat` occur contiguously? -/
def seqOccurs (pat : List Char) : List Char → Bool
  | [] => pat.isEmpty
  | c :: cs => pat.isPrefixOf (c :: cs) || seqOccurs pat cs

/-- Whether `pat` occurs as a contiguous substring of `s`. -/
def containsSeq (s pat : String) : Bool := seqOccurs pat.toList s.toList

/-! ## Static enrichment tables (server.py 681-917)

The four lookup tables are module-level constants in the source; nothing in
the program writes to them, which the embedding reflects by making them plain
definitions outside the mutable `DB` state.  `random.choice` draws a uniform
index; the drawn index becomes the explicit argument `k`. -/

/-- Model of `random.choice(l)` with drawn index `k`. -/
def pyChoice [Inhabited α] (l : List α) (k : Nat) : α :=
  l.getD (k % l.length) default

/-- server.py 681-692. -/
def AFFIRMATIONS_HINDI_ENGLISH : List String :=
  ["You are strong and capable. आप मजबूत और सक्षम हैं।",
   "Today will be a wonderful day. आज एक अद्भुत दिन होगा।",
   "Your family loves you deeply. आपका परिवार आपको बहुत प्यार करता है।",
   "You bring joy to others. आप दूसरों के लिए खुशी लाते हैं।",
   "Age is just a number, wisdom is forever. उम्र सिर्फ एक संख्या है, ज्ञान हमेशा के लिए है।",
   "You are blessed and loved. आप धन्य और प्रिय हैं।",
   "Every day is a new beginning. हर दिन एक नई शुरुआत है।",
   "Your health is improving. आपका स्वास्थ्य सुधर रहा है।",
   "You deserve happiness and peace. आप खुशी और शांति के योग्य हैं।",
   "You are precious to your family. आप अपने परिवार के लिए अनमोल हैं।"]

/-- server.py 694-699, `GET /enrichment/affirmation`: a pure function of the
random draw; it neither reads nor writes the database. -/
def get_daily_affirmation (k : Nat) : String :=
  pyChoice AFFIRMATIONS_HINDI_ENGLISH k

/-- One entry of the jokes table. -/
structure Joke where
  joke : String
  type : String
deriving DecidableEq, Repr, Inhabited

/-- server.py 702-713. -/
def INDIAN_JOKES : List Joke :=
  [⟨"Why did the samosa go to school? To get a little butter! (batter!)", "food"⟩,
   ⟨"What do you call a sleeping bull? A bulldozer!", "animal"⟩,
   ⟨"Why did the cricket player go to the bank? To get his boundary!", "cricket"⟩,
   ⟨"What\x27s a computer\x27s favorite snack? Microchips and data!", "tech"⟩,
   ⟨"Why don\x27t secrets work in India? Because chai and gossip travel faster than internet!", "culture"⟩,
   ⟨"What did the chapati say to the dal? Without you, life is so dry!", "food"⟩,
   ⟨"Why was the math book sad? It had too many problems!", "general"⟩,
   ⟨"What do you call a funny mountain? Hill-arious!", "general"⟩,
   ⟨"Why did the bicycle fall over? It was two-tired!", "general"⟩,
   ⟨"What do clouds wear under their clothes? Thunderwear!", "weather"⟩]

/-- server.py 715-720, `GET /enrichment/joke`. -/
def get_joke (k : Nat) : Joke :=
  pyChoice INDIAN_JOKES k

/-- One entry of the trivia table. -/
structure TriviaQuestion where
  question : String
  options : List String
  answer : String
  category : String
deriving DecidableEq, Repr, Inhabited

/-- server.py 723-772. -/
def INDIAN_TRIVIA : List TriviaQuestion :=
  [⟨"Which Indian city is known as the Pink City?",
    ["Jaipur", "Udaipur", "Jodhpur", "Agra"], "Jaipur", "geography"⟩,
   ⟨"Who is known as the Father of the Nation in India?",
    ["Jawaharlal Nehru", "Mahatma Gandhi", "Sardar Patel", "Subhash Chandra Bose"],
    "Mahatma Gandhi", "history"⟩,
   ⟨"What is India\x27s national flower?",
    ["Rose", "Lotus", "Jasmine", "Marigold"], "Lotus", "general"⟩,
   ⟨"In which year did India gain independence?",
    ["1942", "1945", "1947", "1950"], "1947", "history"⟩,
   ⟨"Which is the longest river in India?",
    ["Yamuna", "Brahmaputra", "Ganga", "Godavari"], "Ganga", "geography"⟩,
   ⟨"Who was the first Prime Minister of India?",
    ["Dr. Rajendra Prasad", "Jawaharlal Nehru", "Indira Gandhi", "Lal Bahadur Shastri"],
    "Jawaharlal Nehru", "history"⟩,
   ⟨"What is the capital of India?",
    ["Mumbai", "Kolkata", "New Delhi", "Chennai"], "New Delhi", "geography"⟩,
   ⟨"Which festival is known as the festival of lights?",
    ["Holi", "Diwali", "Dussehra", "Eid"], "Diwali", "culture"⟩]

/-- server.py 774-787, `GET /enrichment/trivia`: filter by category, fall
back to the whole table when the filter is empty, then a random draw. -/
def get_trivia (category : String) (k : Nat) : TriviaQuestion :=
  let questions :=
    if category == "all" then INDIAN_TRIVIA
    else INDIAN_TRIVIA.filter (fun q => q.category == category)
  let questions := if questions.isEmpty then INDIAN_TRIVIA else questions
  pyChoice questions k

/-- One entry of the quotes table. -/
structure QuoteDoc where
  quote : String
  author : String
deriving DecidableEq, Repr, Inhabited

/-- server.py 844-855. -/
def INSPIRATIONAL_QUOTES : List QuoteDoc :=
  [⟨"Arise, awake and stop not till the goal is reached.", "Swami Vivekananda"⟩,
   ⟨"The best time to plant a tree was 20 years ago. The second best time is now.",
    "Ancient Indian Proverb"⟩,
   ⟨"You must be the change you wish to see in the world.", "Mahatma Gandhi"⟩,
   ⟨"In a gentle way, you can shake the world.", "Mahatma Gandhi"⟩,
   ⟨"The mind is everything. What you think, you become.", "Buddha"⟩,
   ⟨"Health is the greatest gift, contentment the greatest wealth.", "Buddha"⟩,
   ⟨"Yesterday is history, tomorrow is mystery, today is a gift.", "Ancient Wisdom"⟩,
   ⟨"A journey of a thousand miles begins with a single step.", "Lao Tzu"⟩,
   ⟨"The soul is neither born nor does it ever die.", "Bhagavad Gita"⟩,
   ⟨"Where there is love, there is life.", "Mahatma Gandhi"⟩]

/-- server.py 857-862, `GET /enrichment/quote`. -/
def get_inspirational_quote (k : Nat) : QuoteDoc :=
  pyChoice INSPIRATIONAL_QUOTES k

/-! ## Effect classification of every endpoint handler

`Handler` lists the route handlers of server.py in source order;
`handlerEffects` transliterates which I/O each handler body performs: Mongo
reads/writes (the `await db....` calls) and outbound HTTP calls
(`requests.get` or the language-model client).  The claims quantifying over
"every endpoint" are settled against this classification. -/

inductive Effect where
  | dbRead
  | dbWrite
  | httpCall
deriving DecidableEq, Repr

inductive Handler where
  | root
  | create_user
  | get_user
  | get_users
  | create_reminder
  | get_reminders
  | get_reminder
  | update_reminder
  | delete_reminder
  | snooze_reminder
  | chat
  | get_conversation
  | find_nearby_places
  | get_directions
  | geocode_address
  | get_news_headlines
  | search_news
  | get_current_weather
  | get_weather_forecast
  | search_recipes
  | get_recipe_details
  | search_youtube
  | log_mood
  | get_mood_history
  | get_daily_affirmation
  | get_joke
  | get_trivia
  | check_trivia_answer
  | log_gratitude
  | get_gratitude_history
  | get_inspirational_quote
  | get_breathing_exercise
  | add_birthday
  | get_upcoming_birthdays
deriving DecidableEq, Repr, Fintype

/-- The database operations and outbound HTTP calls each handler performs,
read off its body (line numbers refer to server.py). -/
def handlerEffects : Handler → List Effect
  | .root => []                                          -- 91-93: constant dict
  | .create_user => [.dbWrite]                           -- 100: insert_one
  | .get_user => [.dbRead]                               -- 107: find_one
  | .get_users => [.dbRead]                              -- 116: find
  | .create_reminder => [.dbWrite]                       -- 125: insert_one
  | .get_reminders => [.dbRead]                          -- 131: find
  | .get_reminder => [.dbRead]                           -- 137: find_one
  | .update_reminder => [.dbWrite, .dbRead]              -- 151 update_one, 159 find_one
  | .delete_reminder => [.dbWrite]                       -- 167: delete_one
  | .snooze_reminder => [.dbWrite]                       -- 179: update_one
  | .chat => [.dbRead, .httpCall, .dbWrite]              -- 198 find_one, 266 llm, 285 update_one
  | .get_conversation => [.dbRead]                       -- 298: find_one
  | .find_nearby_places => [.httpCall]                   -- 327: requests.get
  | .get_directions => [.httpCall]                       -- 367: requests.get
  | .geocode_address => [.httpCall]                      -- 404: requests.get
  | .get_news_headlines => [.httpCall]                   -- 435: requests.get
  | .search_news => [.httpCall]                          -- 469: requests.get
  | .get_current_weather => [.httpCall]                  -- 501: requests.get
  | .get_weather_forecast => [.httpCall]                 -- 532: requests.get
  | .search_recipes => [.httpCall]                       -- 569: requests.get
  | .get_recipe_details => [.httpCall]                   -- 596: requests.get
  | .search_youtube => [.httpCall]                       -- 633: requests.get
  | .log_mood => [.dbWrite]                              -- 665: insert_one
  | .get_mood_history => [.dbRead]                       -- 673: find
  | .get_daily_affirmation => []                         -- 694-699: static table
  | .get_joke => []                                      -- 715-720: static table
  | .get_trivia => []                                    -- 774-787: static table
  | .check_trivia_answer => []                           -- 789-808: pure comparison
  | .log_gratitude => [.dbWrite]                         -- 820: insert_one
  | .get_gratitude_history => [.dbRead]                  -- 836: find
  | .get_inspirational_quote => []                       -- 857-862: static table
  | .get_breathing_exercise => []                        -- 912-917: static table
  | .add_birthday => [.dbWrite]                          -- 932: insert_one
  | .get_upcoming_birthdays => [.dbRead]                 -- 939: find

/-- The handlers that compute their response without touching the database
or any external service. -/
def localHandlers : List Handler :=
  [.root, .get_daily_affirmation, .get_joke, .get_trivia, .check_trivia_answer,
   .get_inspirational_quote, .get_breathing_exercise]

/-! ## Birthday tracker (server.py 919-967) -/

/-- Gregorian leap-year rule (as used by Python `datetime`). -/
def isLeap (y : Nat) : Bool :=
  (y % 4 == 0 && y % 100 != 0) || y % 400 == 0

def daysInMonth (y m : Nat) : Nat :=
  if m == 2 then (if isLeap y then 29 else 28)
  else if m == 4 || m == 6 || m == 9 || m == 11 then 30
  else 31

/-- Range check performed by the `datetime(year, month, day)` constructor,
which raises `ValueError` (hence `except: continue` in the handler) on an
out-of-range month or day. -/
def dateValid (y m d : Nat) : Bool :=
  1 ≤ m && m ≤ 12 && 1 ≤ d && d ≤ daysInMonth y m

/-- Days in the months of year `y` strictly before month `m`. -/
def daysBeforeMonth (y m : Nat) : Nat :=
  ((List.range (m - 1)).map (fun i => daysInMonth y (i + 1))).sum

/-- Proleptic Gregorian day number of a date (`datetime.toordinal`). -/
def toOrdinal (y m d : Nat) : Nat :=
  365 * (y - 1) + (y - 1) / 4 - (y - 1) / 100 + (y - 1) / 400 + daysBeforeMonth y m + d

/-- A `datetime.utcnow()` value: calendar date plus seconds already elapsed
in the current day (hour/minute/second/microsecond collapsed into `secs`,
expected in `[0, 86400)`). -/
structure DateTime where
  year : Nat
  month : Nat
  day : Nat
  secs : Nat
deriving DecidableEq, Repr

/-- `month, day = map(int, bday['birth_date'].split('-'))`: exactly two
dash-separated decimal fields.  (Python `int()` also accepts exotic forms
such as a leading `+` or surrounding whitespace; those are not modelled —
they only shift which strings count as parseable.) -/
def mmddParse (s : String) : Option (Nat × Nat) :=
  match s.splitOn "-" with
  | [ms, ds] =>
    match ms.toNat?, ds.toNat? with
    | some m, some d => some (m, d)
    | _, _ => none
  | _ => none

/-- One returned entry: the serialized birthday document plus `days_until`. -/
structure UpcomingBday where
  id : String
  user_id : String
  person_name : String
  relation : String
  birth_date : String
  phone : Option String
  created_at : Timestamp
  days_until : Int
deriving DecidableEq, Repr

/-- `(bday_this_year - today).days`: floor of the difference in days, where
`today` carries a time of day and the birthday datetime is at midnight. -/
def daysUntilOf (bOrd : Nat) (today : DateTime) : Int :=
  Int.fdiv
    ((bOrd : Int) * 86400 - ((toOrdinal today.year today.month today.day : Int) * 86400 + today.secs))
    86400

/-- Final step of the loop body: keep the entry when `0 <= days_until <= days`. -/
def keepUpcoming (today : DateTime) (days : Int) (key : Nat) (b : BirthdayDoc) (bOrd : Nat) :
    Option UpcomingBday :=
  let du := daysUntilOf bOrd today
  if 0 ≤ du ∧ du ≤ days then
    some ⟨oidString key, b.user_id, b.person_name, b.relation, b.birth_date, b.phone,
      b.created_at, du⟩
  else none

/-- Loop body of `get_upcoming_birthdays` (server.py 945-962) for one stored
birthday: parse `MM-DD`, build this year's occurrence (or next year's if it
already passed; either `datetime(...)` call may raise, e.g. Feb 29 in a
non-leap year), compute `days_until`, filter by the `days` window.  `none`
covers both the `except: continue` skip and a filtered-out entry. -/
def processBday (today : DateTime) (days : Int) (key : Nat) (b : BirthdayDoc) :
    Option UpcomingBday :=
  match mmddParse b.birth_date with
  | none => none
  | some (m, d) =>
    if dateValid today.year m d then
      let tOrd := toOrdinal today.year today.month today.day
      let bOrd := toOrdinal today.year m d
      if bOrd * 86400 < tOrd * 86400 + today.secs then
        if dateValid (today.year + 1) m d then
          keepUpcoming today days key b (toOrdinal (today.year + 1) m d)
        else none
      else keepUpcoming today days key b bOrd
    else none

/-- server.py 936-967, `GET /enrichment/birthdays/\x7buser_id\x7d`: read up
to 100 of the user's birthdays (`to_list(100)`), process each, sort by
`days_until` ascending, return the list and its length. -/
def get_upcoming_birthdays (db : DB) (user_id : String) (days : Int) (today : DateTime) :
    List UpcomingBday × Nat :=
  let bdays := (db.birthdays.filter (fun p => p.2.user_id == user_id)).take 100
  let upcoming := bdays.filterMap (fun p => processBday today days p.1 p.2)
  let sorted := upcoming.mergeSort (fun a b => decide (a.days_until ≤ b.days_until))
  (sorted, sorted.length)

/-! ## Concrete states used by witnesses and counterexamples -/

/-- A stored conversation already holding 20 messages, the first of them
distinguishable. -/
def cexConv : ConversationDoc :=
  ⟨"u", ⟨"user", "m0", 0⟩ :: List.replicate 19 ⟨"user", "x", 0⟩, 0, 0⟩

/-- A database holding only `cexConv` under id 1. -/
def cexDB : DB := ⟨[], [], [(1, cexConv)], [], 2⟩

/-- A database holding one empty conversation for the default user. -/
def wDB : DB := ⟨[], [], [(1, ⟨"default", [], 0, 0⟩)], [], 2⟩

/-! # Theorems -/

/-! ## Helper lemmas: digits and ObjectId round trip -/

theorem digitVal?_digit : ∀ d, d < 10 → digitVal? (Char.ofNat (48 + d)) = some d := by
  decide

theorem mapM_digitVal? (ds : List Nat) (h : ∀ d ∈ ds, d < 10) :
    (ds.map (fun d => Char.ofNat (48 + d))).mapM digitVal? = some ds := by
  induction ds with
  | nil => rfl
  | cons d ds ih =>
    have hd : digitVal? (Char.ofNat (48 + d)) = some d := digitVal?_digit d (h d (by simp))
    simp only [List.map_cons, List.mapM_cons, hd, ih (fun x hx => h x (by simp [hx]))]
    rfl

/-- Rendering then parsing an id gives the id back (for the nonzero ids the
database hands out). -/
theorem parseObjectId_oidString {n : Nat} (hn : n ≠ 0) :
    parseObjectId (oidString n) = some n := by
  have hlist : (oidString n).toList
      = ((Nat.digits 10 n).reverse.map (fun d => Char.ofNat (48 + d))) := by
    simp [oidString, String.toList, List.map_reverse]
  have hne : Nat.digits 10 n ≠ [] := Nat.digits_ne_nil_iff_ne_zero.mpr hn
  unfold parseObjectId
  rw [hlist, mapM_digitVal? _ (fun d hd =>
    Nat.digits_lt_base (by norm_num) (List.mem_reverse.mp hd))]
  simp [List.isEmpty_iff, hne, Nat.ofDigits_digits]

/-! ## Helper lemmas: the dict operations -/

theorem dictGet_dictDel_self (d : Dict) (k : String) :
    dictGet (dictDel d k) k = none := by
  unfold dictGet dictDel
  rw [List.find?_eq_none.mpr]
  · rfl
  · intro x hx
    have := (List.mem_filter.mp hx).2
    simp_all

theorem dictGet_dictDel_ne (d : Dict) {k k' : String} (h : k' ≠ k) :
    dictGet (dictDel d k) k' = dictGet d k' := by
  unfold dictGet dictDel
  induction d with
  | nil => rfl
  | cons p ps ih =>
    by_cases hpk : p.1 = k
    · rw [List.filter_cons_of_neg (by simp [hpk]),
        List.find?_cons_of_neg _ (by simp only [hpk, beq_iff_eq]; exact fun hh => h hh.symm),
        ih]
    · rw [List.filter_cons_of_pos (by simp [hpk])]
      by_cases hpk' : p.1 = k'
      · rw [List.find?_cons_of_pos _ (by simp [hpk']),
          List.find?_cons_of_pos _ (by simp [hpk'])]
      · rw [List.find?_cons_of_neg _ (by simp [hpk']),
          List.find?_cons_of_neg _ (by simp [hpk']), ih]

theorem find?_map_overwrite (l : Dict) (k : String) (v : Value) :
    (l.map (fun p => if p.1 == k then (k, v) else p)).find? (fun p => p.1 == k)
      = (l.find? (fun p => p.1 == k)).map (fun _ => (k, v)) := by
  induction l with
  | nil => rfl
  | cons p ps ih =>
    rw [List.map_cons]
    by_cases hpk : p.1 = k
    · rw [if_pos (by simp [hpk]), List.find?_cons_of_pos _ (by simp),
        List.find?_cons_of_pos _ (by simp [hpk])]
      rfl
    · rw [if_neg (by simp [hpk]), List.find?_cons_of_neg _ (by simp [hpk]),
        List.find?_cons_of_neg _ (by simp [hpk]), ih]

theorem find?_map_overwrite_ne (l : Dict) {k k' : String} (v : Value) (h : k' ≠ k) :
    (l.map (fun p => if p.1 == k then (k, v) else p)).find? (fun p => p.1 == k')
      = l.find? (fun p => p.1 == k') := by
  induction l with
  | nil => rfl
  | cons p ps ih =>
    rw [List.map_cons]
    by_cases hpk : p.1 = k
    · rw [if_pos (by simp [hpk]),
        List.find?_cons_of_neg _ (by simp only [beq_iff_eq]; exact fun hh => h hh.symm),
        List.find?_cons_of_neg _ (by simp only [hpk, beq_iff_eq]; exact fun hh => h hh.symm),
        ih]
    · rw [if_neg (by simp [hpk])]
      by_cases hpk' : p.1 = k'
      · rw [List.find?_cons_of_pos _ (by simp [hpk']),
          List.find?_cons_of_pos _ (by simp [hpk'])]
      · rw [List.find?_cons_of_neg _ (by simp [hpk']),
          List.find?_cons_of_neg _ (by simp [hpk']), ih]

theorem dictGet_dictSet_self (d : Dict) (k : String) (v : Value) :
    dictGet (dictSet d k v) k = some v := by
  unfold dictGet dictSet
  by_cases hs : (d.find? (fun p => p.1 == k)).isSome
  · rw [if_pos hs, find?_map_overwrite]
    rcases Option.isSome_iff_exists.mp hs with ⟨p, hp⟩
    rw [hp]
    rfl
  · rw [if_neg hs, List.find?_append, Option.not_isSome_iff_eq_none.mp hs,
      List.find?_cons_of_pos _ (by simp)]
    rfl

theorem dictGet_dictSet_ne (d : Dict) {k k' : String} (v : Value) (h : k' ≠ k) :
    dictGet (dictSet d k v) k' = dictGet d k' := by
  unfold dictGet dictSet
  by_cases hs : (d.find? (fun p => p.1 == k)).isSome
  · rw [if_pos hs, find?_map_overwrite_ne _ _ h]
  · rw [if_neg hs, List.find?_append,
      List.find?_cons_of_neg _ (by simp only [beq_iff_eq]; exact fun hh => h hh.symm)]
    simp

/-- C8: `serialize_doc` moves `_id` (in string form) to `id`, drops `_id`,
leaves every key other than `_id` and `id` untouched, is the identity on
documents without `_id`, and is idempotent. -/
theorem serialize_doc_spec (doc : Dict) :
    (∀ v, dictGet doc "_id" = some v →
      dictGet (serialize_doc doc) "id" = some (Value.str (pyStr v)) ∧
      dictGet (serialize_doc doc) "_id" = none ∧
      ∀ k, k ≠ "_id" → k ≠ "id" → dictGet (serialize_doc doc) k = dictGet doc k) ∧
    (dictGet doc "_id" = none → serialize_doc doc = doc) ∧
    serialize_doc (serialize_doc doc) = serialize_doc doc := by
  refine ⟨?_, ?_, ?_⟩
  · intro v hv
    unfold serialize_doc
    rw [hv]
    refine ⟨?_, ?_, ?_⟩
    · rw [dictGet_dictDel_ne _ (by decide), dictGet_dictSet_self]
    · exact dictGet_dictDel_self _ _
    · intro k hk1 hk2
      rw [dictGet_dictDel_ne _ hk1, dictGet_dictSet_ne _ _ hk2]
  · intro hv
    unfold serialize_doc
    rw [hv]
  · cases hv : dictGet doc "_id" with
    | none =>
      have hid : serialize_doc doc = doc := by
        unfold serialize_doc
        rw [hv]
      rw [hid, hid]
    | some v =>
      have hnone : dictGet (serialize_doc doc) "_id" = none := by
        unfold serialize_doc
        rw [hv]
        exact dictGet_dictDel_self _ _
      rw [serialize_doc.eq_def (serialize_doc doc), hnone]

/-- C8 witness: a concrete document with an `_id` and one other key. -/
theorem serialize_doc_spec_witness :
    dictGet [("_id", Value.str "abc"), ("name", Value.str "a")] "_id"
        = some (Value.str "abc") ∧
    dictGet (serialize_doc [("_id", Value.str "abc"), ("name", Value.str "a")]) "id"
        = some (Value.str "abc") ∧
    dictGet (serialize_doc [("_id", Value.str "abc"), ("name", Value.str "a")]) "name"
        = dictGet [("_id", Value.str "abc"), ("name", Value.str "a")] "name" :=
  ⟨rfl,
    ((serialize_doc_spec [("_id", Value.str "abc"), ("name", Value.str "a")]).1
      (Value.str "abc") rfl).1,
    ((serialize_doc_spec [("_id", Value.str "abc"), ("name", Value.str "a")]).1
      (Value.str "abc") rfl).2.2 "name" (by decide) (by decide)⟩

/-! ## C4: the system prompt names all seven sentinel prefixes -/

/-- C4: the system prompt string sent to the language model contains every
one of the seven sentinel command prefixes of the convention:
REMINDER_COMMAND:, SNOOZE_COMMAND:, LOCATION_QUERY:, NEWS_QUERY:,
WEATHER_QUERY, RECIPE_QUERY: and YOUTUBE_QUERY:. -/
theorem system_prompt_contains_all_sentinels :
    containsSeq system_message "REMINDER_COMMAND:" = true ∧
    containsSeq system_message "SNOOZE_COMMAND:" = true ∧
    containsSeq system_message "LOCATION_QUERY:" = true ∧
    containsSeq system_message "NEWS_QUERY:" = true ∧
    containsSeq system_message "WEATHER_QUERY" = true ∧
    containsSeq system_message "RECIPE_QUERY:" = true ∧
    containsSeq system_message "YOUTUBE_QUERY:" = true := by
  refine ⟨?_, ?_, ?_, ?_, ?_, ?_, ?_⟩ <;> decide

/-! ## C6: enrichment endpoints are served from the static tables -/

theorem pyChoice_mem [Inhabited α] (l : List α) (k : Nat) (h : l ≠ []) :
    pyChoice l k ∈ l := by
  unfold pyChoice
  have hlt : k % l.length < l.length := Nat.mod_lt _ (List.length_pos.mpr h)
  rw [List.getD_eq_getElem?_getD, List.getElem?_eq_getElem hlt]
  exact List.getElem_mem hlt

/-- C6: every response of the affirmation, joke, trivia and quote endpoints
is an element of the corresponding static table (the tables are Lean
constants, which nothing in the embedded program can modify, mirroring the
module-level constants of the source). -/
theorem enrichment_responses_from_static_tables (k : Nat) (category : String) :
    get_daily_affirmation k ∈ AFFIRMATIONS_HINDI_ENGLISH ∧
    get_joke k ∈ INDIAN_JOKES ∧
    get_trivia category k ∈ INDIAN_TRIVIA ∧
    get_inspirational_quote k ∈ INSPIRATIONAL_QUOTES := by
  refine ⟨pyChoice_mem _ _ (by simp [AFFIRMATIONS_HINDI_ENGLISH]),
    pyChoice_mem _ _ (by simp [INDIAN_JOKES]), ?_,
    pyChoice_mem _ _ (by simp [INSPIRATIONAL_QUOTES])⟩
  unfold get_trivia
  dsimp only
  set q1 := if category == "all" then INDIAN_TRIVIA
    else INDIAN_TRIVIA.filter (fun q => q.category == category) with hq1
  have hsub : q1 ⊆ INDIAN_TRIVIA := by
    rw [hq1]
    split
    · exact fun a ha => ha
    · exact fun a ha => (List.mem_filter.mp ha).1
  by_cases he : q1.isEmpty
  · rw [if_pos he]
    exact pyChoice_mem _ _ (by simp [INDIAN_TRIVIA])
  · rw [if_neg he]
    exact hsub (pyChoice_mem _ _ (by simpa [List.isEmpty_iff] using he))

/-! ## C1: which handlers are pure passthroughs -/

/-- C1 counterexample: the claim that no handler computes its response
purely locally (without any database operation or external call) is false:
the daily-affirmation handler performs no database and no external call. -/
theorem not_every_handler_is_passthrough :
    ¬ (∀ h : Handler, handlerEffects h ≠ []) :=
  fun hall => hall Handler.get_daily_affirmation rfl

/-- C1 (amended): every handler except the seven local ones (the root
banner and the static-table/pure-comparison enrichment handlers:
get_daily_affirmation, get_joke, get_trivia, check_trivia_answer,
get_inspirational_quote, get_breathing_exercise) performs a database
operation or an external HTTP call; those seven compute their responses
purely locally. -/
theorem handlers_passthrough_except_local :
    ∀ h : Handler, h ∉ localHandlers → handlerEffects h ≠ [] := by
  decide

/-- C1 amended witness at the chat handler. -/
theorem handlers_passthrough_except_local_witness :
    Handler.chat ∉ localHandlers ∧ handlerEffects Handler.chat ≠ [] :=
  ⟨by decide, handlers_passthrough_except_local Handler.chat (by decide)⟩

/-! ## Helper lemmas: the chat endpoint's stored conversation -/

theorem find?_key_map_set {β : Type} (g : β → β) (cid : Nat) (l : List (Nat × β)) (conv : β)
    (hnd : (l.map (fun p => p.1)).Nodup) (hmem : (cid, conv) ∈ l) :
    (l.map (fun p => if p.1 == cid then (p.1, g p.2) else p)).find? (fun p => p.1 == cid)
      = some (cid, g conv) := by
  induction l with
  | nil => cases hmem
  | cons a l ih =>
    rw [List.map_cons] at hnd ⊢
    by_cases hak : a.1 = cid
    · rw [if_pos (by simp [hak]), List.find?_cons_of_pos _ (by simp [hak])]
      rcases List.mem_cons.mp hmem with heq | htail
      · rw [← heq]
      · exfalso
        apply (List.nodup_cons.mp hnd).1
        rw [hak]
        exact List.mem_map_of_mem _ htail
    · rw [if_neg (by simp [hak]), List.find?_cons_of_neg _ (by simp [hak])]
      rcases List.mem_cons.mp hmem with heq | htail
      · exact absurd (congrArg Prod.fst heq.symm) hak
      · exact ih (List.nodup_cons.mp hnd).2 htail

/-- When a conversation `(cid, conv)` is found for the requesting user, the
chat endpoint stores exactly the truncated appended message list under
`cid`. -/
theorem convMessages_chat_found (db : DB) (m : ChatMessageIn) (reply : String)
    (now : Timestamp) (cid : Nat) (conv : ConversationDoc)
    (hnd : (db.conversations.map (fun p => p.1)).Nodup)
    (hfind : db.conversations.find? (fun p => p.2.user_id == m.user_id.getD "default")
       = some (cid, conv)) :
    convMessages (chat db m reply now).2 cid
      = some (chatUpdateMessages conv.messages ⟨"user", m.message, now⟩
          ⟨"assistant", reply, now⟩) := by
  have hmem : (cid, conv) ∈ db.conversations := List.mem_of_find?_eq_some hfind
  unfold chat
  dsimp only
  rw [hfind]
  unfold convMessages
  dsimp only
  rw [find?_key_map_set
    (fun c => { c with
      messages := chatUpdateMessages conv.messages ⟨"user", m.message, now⟩
        ⟨"assistant", reply, now⟩,
      updated_at := now })
    cid db.conversations conv hnd hmem]
  rfl

/-- The stored message list always equals the appended list with everything
before the last 20 entries dropped (dropping nothing when it is short). -/
theorem chatUpdateMessages_eq_drop (msgs : List Msg) (u a : Msg) :
    chatUpdateMessages msgs u a = (msgs ++ [u, a]).drop (msgs.length + 2 - 20) := by
  unfold chatUpdateMessages
  dsimp only
  have happ : (msgs ++ [u, a]).length = msgs.length + 2 := by simp
  by_cases hlen : (msgs ++ [u, a]).length > 20
  · rw [if_pos hlen]
    congr 1
    omega
  · rw [if_neg hlen]
    have h0 : msgs.length + 2 - 20 = 0 := by omega
    rw [h0, List.drop_zero]

/-! ## C2: the chat endpoint evicts old conversation history -/

/-- C2 counterexample: a message previously saved to the conversations store
is dropped by a later chat call.  `cexConv` holds 20 messages, the first of
which (`m0`) is no longer stored after one more chat exchange. -/
theorem chat_drops_old_messages :
    ((⟨"user", "m0", 0⟩ : Msg) ∈ cexConv.messages) ∧
    (convMessages (chat cexDB ⟨"hello", some "u"⟩ "ok" 5).2 1).map
      (fun ms => decide ((⟨"user", "m0", 0⟩ : Msg) ∈ ms)) = some false := by
  decide

/-- C2 (amended): the chat endpoint does apply an eviction policy, but it is
exactly a 20-entry cap: after a chat call on a stored conversation the
stored messages are the appended history with everything before the most
recent 20 entries dropped (so nothing is dropped while the history stays
within 20). -/
theorem chat_eviction_truncates_to_last_20 (db : DB) (m : ChatMessageIn) (reply : String)
    (now : Timestamp) (cid : Nat) (conv : ConversationDoc) (hwf : db.WF)
    (hfind : db.conversations.find? (fun p => p.2.user_id == m.user_id.getD "default")
       = some (cid, conv)) :
    convMessages (chat db m reply now).2 cid
      = some ((conv.messages ++ [(⟨"user", m.message, now⟩ : Msg), ⟨"assistant", reply, now⟩]).drop
          (conv.messages.length + 2 - 20)) := by
  rw [convMessages_chat_found db m reply now cid conv hwf.2.2.2 hfind,
    chatUpdateMessages_eq_drop]

/-- C2 amended witness: one chat call on the stored empty conversation. -/
theorem chat_eviction_truncates_to_last_20_witness :
    wDB.WF ∧
    convMessages (chat wDB ⟨"hi", none⟩ "hello" 3).2 1
      = some ((([] : List Msg) ++ [(⟨"user", "hi", 3⟩ : Msg), ⟨"assistant", "hello", 3⟩]).drop
          (([] : List Msg).length + 2 - 20)) :=
  ⟨by decide, chat_eviction_truncates_to_last_20 wDB ⟨"hi", none⟩ "hello" 3 1
      ⟨"default", [], 0, 0⟩ (by decide) (by decide)⟩

/-! ## C3: the model reply is returned verbatim -/

/-- C3: the chat endpoint returns the language model's reply verbatim as the
`response` field, for every database state and request; no server-side
sentinel parsing happens (the embedded handler never inspects `reply`). -/
theorem chat_returns_model_reply_verbatim (db : DB) (m : ChatMessageIn)
    (reply : String) (now : Timestamp) :
    (chat db m reply now).1 = .ok ⟨reply, now⟩ := by
  unfold chat
  dsimp only
  cases db.conversations.find? (fun p => p.2.user_id == m.user_id.getD "default") <;> rfl

/-! ## C9: stored history is bounded by 20 -/

/-- C9: if the stored conversation has at most 20 messages before a chat
call, the stored list afterwards is the appended history truncated from the
front (new user and assistant messages appended before any truncation,
order preserved) and still has at most 20 entries. -/
theorem chat_history_bounded_by_20 (db : DB) (m : ChatMessageIn) (reply : String)
    (now : Timestamp) (cid : Nat) (conv : ConversationDoc) (hwf : db.WF)
    (hfind : db.conversations.find? (fun p => p.2.user_id == m.user_id.getD "default")
       = some (cid, conv))
    (hlen : conv.messages.length ≤ 20) :
    convMessages (chat db m reply now).2 cid
      = some (chatUpdateMessages conv.messages ⟨"user", m.message, now⟩
          ⟨"assistant", reply, now⟩) ∧
    chatUpdateMessages conv.messages ⟨"user", m.message, now⟩ ⟨"assistant", reply, now⟩
      = (conv.messages ++ [(⟨"user", m.message, now⟩ : Msg), ⟨"assistant", reply, now⟩]).drop
          (conv.messages.length + 2 - 20) ∧
    (chatUpdateMessages conv.messages ⟨"user", m.message, now⟩
        ⟨"assistant", reply, now⟩).length ≤ 20 := by
  refine ⟨convMessages_chat_found db m reply now cid conv hwf.2.2.2 hfind,
    chatUpdateMessages_eq_drop _ _ _, ?_⟩
  rw [chatUpdateMessages_eq_drop, List.length_drop]
  have happ : (conv.messages ++ [(⟨"user", m.message, now⟩ : Msg),
      ⟨"assistant", reply, now⟩]).length = conv.messages.length + 2 := by simp
  omega

/-- C9 witness: one chat call on the stored empty conversation. -/
theorem chat_history_bounded_by_20_witness :
    wDB.WF ∧ (([] : List Msg).length ≤ 20) ∧
    (chatUpdateMessages [] (⟨"user", "hi", 3⟩ : Msg) ⟨"assistant", "hello", 3⟩).length ≤ 20 :=
  ⟨by decide, by decide,
    (chat_history_bounded_by_20 wDB ⟨"hi", none⟩ "hello" 3 1 ⟨"default", [], 0, 0⟩
      (by decide) (by decide) (by decide)).2.2⟩

/-! ## C5: failed operations report an HTTP error and leave the database unchanged -/

/-- C5: every failure of the guarded user/reminder operations (invalid id
string, document not found, empty update, no-op update) is reported as an
HTTP error — always status 400, since the 404 raised inside the `try` block
is converted by the `except` clause — and on every such failure the stored
collections are untouched: `get_user` reads only, and every failing branch
of `update_reminder` and `delete_reminder` returns the input state. -/
theorem failed_ops_error_and_preserve_db (db : DB) (uid rid : String)
    (u : ReminderUpdate) (e : HTTPError) :
    (get_user db uid = .error e → e.status = 400) ∧
    ((update_reminder db rid u).1 = .error e →
      e.status = 400 ∧ (update_reminder db rid u).2 = db) ∧
    ((delete_reminder db rid).1 = .error e →
      e.status = 400 ∧ (delete_reminder db rid).2 = db) := by
  refine ⟨?_, ?_, ?_⟩
  · unfold get_user
    split
    · intro h
      injection h with h'
      subst h'
      rfl
    · split
      · intro h
        injection h with h'
        subst h'
        rfl
      · intro h
        simp at h
  · unfold update_reminder
    split
    · intro h
      dsimp only at h ⊢
      injection h with h'
      subst h'
      exact ⟨rfl, rfl⟩
    · split
      · intro h
        dsimp only at h ⊢
        injection h with h'
        subst h'
        exact ⟨rfl, rfl⟩
      · split
        · intro h
          dsimp only at h ⊢
          injection h with h'
          subst h'
          exact ⟨rfl, rfl⟩
        · dsimp only
          split
          · intro h
            dsimp only at h ⊢
            injection h with h'
            subst h'
            exact ⟨rfl, rfl⟩
          · intro h
            dsimp only at h
            simp at h
  · unfold delete_reminder
    split
    · intro h
      dsimp only at h ⊢
      injection h with h'
      subst h'
      exact ⟨rfl, rfl⟩
    · split
      · intro h
        dsimp only at h ⊢
        injection h with h'
        subst h'
        exact ⟨rfl, rfl⟩
      · intro h
        dsimp only at h
        simp at h

/-- C5 witness: updating a reminder through an invalid id string fails with
status 400 and leaves the (empty) database unchanged. -/
theorem failed_ops_error_and_preserve_db_witness :
    (update_reminder emptyDB "zz" ⟨some "t", none, none, none⟩).1
      = .error ⟨400, "invalid ObjectId"⟩ ∧
    (update_reminder emptyDB "zz" ⟨some "t", none, none, none⟩).2 = emptyDB :=
  ⟨rfl,
    ((failed_ops_error_and_preserve_db emptyDB "zz" "zz" ⟨some "t", none, none, none⟩
      ⟨400, "invalid ObjectId"⟩).2.1 rfl).2⟩

/-! ## C7: reminder create/get round trip -/

/-- C7: creating a reminder and fetching it through the returned id gives
back a reminder whose user_id, type, title, time and enabled fields equal
the submitted ones (in fact the exact response of the create call). -/
theorem create_reminder_get_reminder_roundtrip (db : DB) (hwf : db.WF)
    (p : ReminderCreate) (uid : String) (now : Timestamp) :
    get_reminder (create_reminder db p uid now).2 (create_reminder db p uid now).1.id
      = .ok (create_reminder db p uid now).1 ∧
    (create_reminder db p uid now).1.user_id = uid ∧
    (create_reminder db p uid now).1.type = p.type ∧
    (create_reminder db p uid now).1.title = p.title ∧
    (create_reminder db p uid now).1.time = p.time ∧
    (create_reminder db p uid now).1.enabled = p.enabled := by
  refine ⟨?_, rfl, rfl, rfl, rfl, rfl⟩
  unfold create_reminder get_reminder reminderOut
  dsimp only
  rw [parseObjectId_oidString hwf.1]
  dsimp only
  have hnone : db.reminders.find? (fun q => q.1 == db.nextId) = none := by
    rw [List.find?_eq_none]
    intro q hq
    have := hwf.2.1 q hq
    simp only [beq_iff_eq]
    omega
  rw [List.find?_append, hnone, List.find?_cons_of_pos _ (by simp)]
  rfl

/-- C7 witness: a concrete creation in the empty database. -/
theorem create_reminder_get_reminder_roundtrip_witness :
    emptyDB.WF ∧
    (create_reminder emptyDB ⟨"medicine", "Take pills", "09:00", true⟩ "default" 0).1.user_id
      = "default" :=
  ⟨by decide, (create_reminder_get_reminder_roundtrip emptyDB (by decide)
      ⟨"medicine", "Take pills", "09:00", true⟩ "default" 0).2.1⟩

/-! ## C10: upcoming-birthdays postconditions -/

theorem keepUpcoming_bounds {today : DateTime} {days : Int} {key : Nat} {b : BirthdayDoc}
    {bOrd : Nat} {e : UpcomingBday} (h : keepUpcoming today days key b bOrd = some e) :
    0 ≤ e.days_until ∧ e.days_until ≤ days := by
  unfold keepUpcoming at h
  dsimp only at h
  split at h
  · rename_i hcond
    injection h with h'
    subst h'
    exact hcond
  · simp at h

theorem processBday_bounds {today : DateTime} {days : Int} {key : Nat} {b : BirthdayDoc}
    {e : UpcomingBday} (h : processBday today days key b = some e) :
    0 ≤ e.days_until ∧ e.days_until ≤ days := by
  unfold processBday at h
  split at h
  · simp at h
  · dsimp only at h
    split at h
    · split at h
      · split at h
        · exact keepUpcoming_bounds h
        · simp at h
      · exact keepUpcoming_bounds h
    · simp at h

theorem processBday_skip {today : DateTime} {days : Int} {key : Nat} {b : BirthdayDoc}
    (h : mmddParse b.birth_date = none) :
    processBday today days key b = none := by
  unfold processBday
  rw [h]

/-- C10: every entry returned by the upcoming-birthdays endpoint has
`0 <= days_until <= days`, the returned list is sorted by `days_until` in
non-decreasing order, and a stored entry whose `birth_date` does not parse
as `MM-DD` is skipped without error (prepending such an entry leaves the
response unchanged; the bound `< 100` keeps the `to_list(100)` cut-off out
of the way). -/
theorem upcoming_birthdays_postcondition (db : DB) (uid : String) (days : Int)
    (today : DateTime) (hdays : 0 ≤ days) :
    (∀ e ∈ (get_upcoming_birthdays db uid days today).1,
        0 ≤ e.days_until ∧ e.days_until ≤ days) ∧
    (get_upcoming_birthdays db uid days today).1.Pairwise
        (fun a b => a.days_until ≤ b.days_until) ∧
    (∀ (key : Nat) (bad : BirthdayDoc), mmddParse bad.birth_date = none →
        (db.birthdays.filter (fun p => p.2.user_id == uid)).length < 100 →
        get_upcoming_birthdays { db with birthdays := (key, bad) :: db.birthdays } uid days today
          = get_upcoming_birthdays db uid days today) := by
  refine ⟨?_, ?_, ?_⟩
  · intro e he
    unfold get_upcoming_birthdays at he
    dsimp only at he
    rw [List.mem_mergeSort] at he
    rcases List.mem_filterMap.mp he with ⟨p, _, hp⟩
    exact processBday_bounds hp
  · unfold get_upcoming_birthdays
    dsimp only
    refine List.Pairwise.imp ?_ (List.sorted_mergeSort ?_ ?_ _)
    · exact fun hb => of_decide_eq_true hb
    · intro a b c h1 h2
      simp only [decide_eq_true_eq] at h1 h2 ⊢
      omega
    · intro a b
      simp only [Bool.or_eq_true, decide_eq_true_eq]
      exact Int.le_total _ _
  · intro key bad hparse hlen100
    unfold get_upcoming_birthdays
    dsimp only
    have hfeq : List.filter (fun p => p.2.user_id == uid) ((key, bad) :: db.birthdays)
        = if bad.user_id == uid then
            (key, bad) :: List.filter (fun p => p.2.user_id == uid) db.birthdays
          else List.filter (fun p => p.2.user_id == uid) db.birthdays := by
      rw [List.filter_cons]
    by_cases hu : (bad.user_id == uid) = true
    · have h1 : ((key, bad) :: List.filter (fun p => p.2.user_id == uid) db.birthdays).length
          ≤ 100 := by
        simp only [List.length_cons]
        omega
      have h2 : (List.filter (fun p => p.2.user_id == uid) db.birthdays).length ≤ 100 := by
        omega
      rw [hfeq, if_pos hu, List.take_of_length_le h1, List.take_of_length_le h2,
        List.filterMap_cons]
      dsimp only
      rw [processBday_skip hparse]
    · rw [hfeq, if_neg hu]

/-- C10 witness at the empty database with a 30-day window. -/
theorem upcoming_birthdays_postcondition_witness :
    ((0:Int) ≤ 30) ∧
    (∀ e ∈ (get_upcoming_birthdays emptyDB "u" 30 ⟨2026, 10, 12, 0⟩).1,
        0 ≤ e.days_until ∧ e.days_until ≤ 30) :=
  ⟨by decide,
    (upcoming_birthdays_postcondition emptyDB "u" 30 ⟨2026, 10, 12, 0⟩ (by decide)).1⟩

end Saathi
